import Mathlib

/-!
A shallow embedding of the query-translation, configuration-resolution and
response-normalization layer of the `simple-loki-mcp` repository
(src/index.ts, src/utils/loki-auth.ts, src/utils/loki-client.ts,
src/utils/loki-query-builder.ts), together with theorems settling the
behavioural claims about it.

Modelling conventions:
- JavaScript environment functions (`Date.now()`, `Date.prototype.toISOString`,
  `new Date(string)`) are passed in as a `DateEnv` record of pure functions.
- JavaScript truthiness is modelled per value class (`strTruthy`, `numTruthy`,
  `boolTruthy`); an optional object field (a `Date`) is truthy iff present.
- Fields that may be absent are `Option`s; `none` models a missing,
  `undefined` or `null` field.
- The HTTP transport is a parameter: an `HttpOutcome` value stands for the
  settled result of the axios GET call (parsed body, HTTP error response, or
  network failure), mirroring axios's default behaviour of raising on any
  non-2xx status.
-/

namespace LokiMcp

/-! ## JavaScript truthiness helpers -/

/-- Truthiness of an optional JS string: present and non-empty. -/
def strTruthy : Option String → Bool
  | none => false
  | some s => s ≠ ""

/-- Truthiness of an optional JS number: present and non-zero. -/
def numTruthy : Option Int → Bool
  | none => false
  | some n => n ≠ 0

/-- Truthiness of an optional JS boolean: present and `true`. -/
def boolTruthy : Option Bool → Bool
  | none => false
  | some b => b

/-! ## Date environment

The source calls `Date.now()`, `date.toISOString()` and
`new Date(parseInt(ts) / 1000000).toISOString()`.  A `Date` value is
represented by its epoch-millisecond count; the conversions are supplied as
pure functions of the environment. -/

structure DateEnv where
  /-- `Date.now()`, in epoch milliseconds. -/
  nowMs : Int
  /-- `new Date(ms).toISOString()`. -/
  isoOfMs : Int → String
  /-- `new Date(parseInt(ts) / 1000000).toISOString()` applied to a
      nanosecond-timestamp string (streams default output path). -/
  isoOfNsStr : String → String
  /-- `new Date(s).getTime()` for an ISO timestamp string. -/
  parseMs : String → Int

/-! ## Connection configuration (src/utils/loki-auth.ts) -/

/-- `LokiAuthConfig` (loki-auth.ts lines 10-24): every field optional. -/
structure LokiAuthConfig where
  addr : Option String := none
  username : Option String := none
  password : Option String := none
  tenant_id : Option String := none
  bearer_token : Option String := none
  bearer_token_file : Option String := none
  ca_file : Option String := none
  cert_file : Option String := none
  key_file : Option String := none
  org_id : Option String := none
  tls_skip_verify : Option Bool := none

/-- `LokiAuth.getAuthArgs` (loki-auth.ts lines 138-158): one `--flag=value`
token per truthy configuration field, plus a bare `--tls-skip-verify`. -/
def getAuthArgs (c : LokiAuthConfig) : List String :=
  (if strTruthy c.addr then ["--addr=" ++ c.addr.getD ""] else [])
  ++ (if strTruthy c.username then ["--username=" ++ c.username.getD ""] else [])
  ++ (if strTruthy c.password then ["--password=" ++ c.password.getD ""] else [])
  ++ (if strTruthy c.tenant_id then ["--tenant-id=" ++ c.tenant_id.getD ""] else [])
  ++ (if strTruthy c.bearer_token then ["--bearer-token=" ++ c.bearer_token.getD ""] else [])
  ++ (if strTruthy c.bearer_token_file then
        ["--bearer-token-file=" ++ c.bearer_token_file.getD ""] else [])
  ++ (if strTruthy c.ca_file then ["--ca-file=" ++ c.ca_file.getD ""] else [])
  ++ (if strTruthy c.cert_file then ["--cert-file=" ++ c.cert_file.getD ""] else [])
  ++ (if strTruthy c.key_file then ["--key-file=" ++ c.key_file.getD ""] else [])
  ++ (if strTruthy c.org_id then ["--org-id=" ++ c.org_id.getD ""] else [])
  ++ (if boolTruthy c.tls_skip_verify then ["--tls-skip-verify"] else [])

/-- `LokiAuth.getConfig` (loki-auth.ts lines 161-166): the redacted view of
the configuration handed out to callers — `password` and `bearer_token` are
excluded. -/
def getConfig (c : LokiAuthConfig) : LokiAuthConfig :=
  { c with password := none, bearer_token := none }

/-! ### Configuration-file merge (loki-auth.ts lines 96-121)

`loadFromConfigFile` merges the parsed file over the environment-loaded
configuration with the object spread `{ ...parsedConfig, ...this.config }`.
JS objects are modelled as association lists in insertion order; keys present
in the second spread argument override keys of the first. -/

/-- The JS object spread `{ ...a, ...b }`: keys of `a` in order, each
overridden by `b`'s value when `b` also has the key, followed by the keys of
`b` that `a` lacks, in `b`'s order. -/
def jsSpread {V : Type} (a b : List (String × V)) : List (String × V) :=
  (a.map fun p =>
    match b.lookup p.1 with
    | some v => (p.1, v)
    | none => p)
  ++ b.filter fun p => (a.lookup p.1).isNone

/-- The merge performed by `LokiAuth.loadFromConfigFile` line 111:
`this.config = { ...parsedConfig, ...this.config }`, where `this.config`
holds the environment-loaded fields. -/
def mergeFileUnderEnv {V : Type} (parsedConfig envConfig : List (String × V)) :
    List (String × V) :=
  jsSpread parsedConfig envConfig

/-! ## Query options (src/utils/loki-query-builder.ts lines 4-12)

`from`/`to` are JS `Date`s (epoch milliseconds here); `from` is a Lean
keyword, so the fields are named `fromDate`/`toDate`. -/

structure LokiQueryOptions where
  fromDate : Option Int := none
  toDate : Option Int := none
  limit : Option Int := none
  batch : Option Int := none
  quiet : Option Bool := none
  forward : Option Bool := none
  output : Option String := none

/-- `LokiQueryBuilder.buildGlobalArgs` (loki-query-builder.ts lines 24-38). -/
def buildGlobalArgs (o : LokiQueryOptions) : List String :=
  (if boolTruthy o.quiet then ["--quiet"] else [])
  ++ (if strTruthy o.output then ["--output=" ++ o.output.getD ""] else [])

/-- `LokiQueryBuilder.buildQuerySpecificArgs` (loki-query-builder.ts lines
45-79): `--from`/`--to` always emitted, with a now-minus-one-hour and a
literal `now` default; `--limit`/`--batch` only when truthy; `--forward`
when true. -/
def buildQuerySpecificArgs (env : DateEnv) (o : LokiQueryOptions) : List String :=
  (match o.fromDate with
   | some d => ["--from=" ++ env.isoOfMs d]
   | none => ["--from=" ++ env.isoOfMs (env.nowMs - 60 * 60 * 1000)])
  ++ (match o.toDate with
      | some d => ["--to=" ++ env.isoOfMs d]
      | none => ["--to=now"])
  ++ (match o.limit with
      | some n => if n ≠ 0 then ["--limit=" ++ toString n] else []
      | none => [])
  ++ (match o.batch with
      | some n => if n ≠ 0 then ["--batch=" ++ toString n] else []
      | none => [])
  ++ (if boolTruthy o.forward then ["--forward"] else [])

/-- The `--limit`/`--batch`/`--forward` tail shared by both `--from`-handling
variants of the query-specific argument construction. -/
def queryOptionTailArgs (o : LokiQueryOptions) : List String :=
  (match o.limit with
   | some n => if n ≠ 0 then ["--limit=" ++ toString n] else []
   | none => [])
  ++ (match o.batch with
      | some n => if n ≠ 0 then ["--batch=" ++ toString n] else []
      | none => [])
  ++ (if boolTruthy o.forward then ["--forward"] else [])

/-- The query-specific arguments built inline by `LokiClient.queryLokiViaLogCli`
(loki-client.ts lines 361-386): same option handling as the builder except
that `--from`/`--to` are emitted only when set (no defaults). -/
def logCliQuerySpecificArgs (env : DateEnv) (o : LokiQueryOptions) : List String :=
  (match o.fromDate with
   | some d => ["--from=" ++ env.isoOfMs d]
   | none => [])
  ++ (match o.toDate with
      | some d => ["--to=" ++ env.isoOfMs d]
      | none => [])
  ++ (match o.limit with
      | some n => if n ≠ 0 then ["--limit=" ++ toString n] else []
      | none => [])
  ++ (match o.batch with
      | some n => if n ≠ 0 then ["--batch=" ++ toString n] else []
      | none => [])
  ++ (if boolTruthy o.forward then ["--forward"] else [])

/-- `allArgs` of `LokiClient.queryLokiViaLogCli` (loki-client.ts lines
390-396): `[...authArgs, ...globalArgs, ...queryCmd, ...querySpecificArgs,
query]` — the raw query string is the single last element. -/
def logCliAllArgs (c : LokiAuthConfig) (env : DateEnv) (o : LokiQueryOptions)
    (query : String) : List String :=
  getAuthArgs c ++ buildGlobalArgs o ++ ["query"]
    ++ logCliQuerySpecificArgs env o ++ [query]

/-! ## HTTP parameter and header construction
(`LokiClient.queryLokiViaHttp`, loki-client.ts lines 434-517) -/

/-- The `params` record built at loki-client.ts lines 451-470: `query`
always, `start`/`end` when the corresponding `Date` is set, `limit` when
truthy, `direction` when `forward` was explicitly given (`!== undefined`). -/
def buildHttpParams (env : DateEnv) (query : String) (o : LokiQueryOptions) :
    List (String × String) :=
  [("query", query)]
  ++ (match o.fromDate with
      | some d => [("start", env.isoOfMs d)]
      | none => [])
  ++ (match o.toDate with
      | some d => [("end", env.isoOfMs d)]
      | none => [])
  ++ (match o.limit with
      | some n => if n ≠ 0 then [("limit", toString n)] else []
      | none => [])
  ++ (match o.forward with
      | some b => [("direction", if b then "forward" else "backward")]
      | none => [])

/-! ### Base64 (`Buffer.from(s).toString("base64")`) -/

/-- The standard base64 alphabet as a character list. -/
def base64Alphabet : List Char :=
  "ABCDEFGHIJKLMNOPQRSTUVWXYZabcdefghijklmnopqrstuvwxyz0123456789+/".toList

/-- The base64 digit for a 6-bit value. -/
def base64Char (n : Nat) : Char :=
  base64Alphabet.getD n 'A'

/-- Base64-encode a byte list, three bytes to four digits, `=`-padded. -/
def base64Chunks : List Nat → String
  | [] => ""
  | [b0] =>
    String.mk [base64Char (b0 / 4), base64Char (b0 % 4 * 16)] ++ "=="
  | [b0, b1] =>
    String.mk [base64Char (b0 / 4), base64Char (b0 % 4 * 16 + b1 / 16),
      base64Char (b1 % 16 * 4)] ++ "="
  | b0 :: b1 :: b2 :: rest =>
    String.mk [base64Char (b0 / 4), base64Char (b0 % 4 * 16 + b1 / 16),
      base64Char (b1 % 16 * 4 + b2 / 64), base64Char (b2 % 64)]
      ++ base64Chunks rest

/-- The UTF-8 byte sequence of one character. -/
def utf8Bytes (c : Char) : List Nat :=
  let n := c.toNat
  if n < 0x80 then [n]
  else if n < 0x800 then [0xC0 + n / 64, 0x80 + n % 64]
  else if n < 0x10000 then [0xE0 + n / 4096, 0x80 + n / 64 % 64, 0x80 + n % 64]
  else [0xF0 + n / 262144, 0x80 + n / 4096 % 64, 0x80 + n / 64 % 64, 0x80 + n % 64]

/-- `Buffer.from(s).toString("base64")`: base64 over the UTF-8 bytes. -/
def base64Encode (s : String) : String :=
  base64Chunks (s.toList.map utf8Bytes).flatten

/-- The authorization header construction shared verbatim by
`queryLokiViaHttp` (loki-client.ts lines 476-483), `getLabelsViaHttp` (lines
761-768) and `getLabelValuesViaHttp` (lines 960-967): `Basic` from
`username:password` when both are truthy, else `Bearer` from `bearer_token`
when truthy, else nothing. -/
def buildAuthHeaders (c : LokiAuthConfig) : List (String × String) :=
  if strTruthy c.username && strTruthy c.password then
    [("Authorization",
      "Basic " ++ base64Encode (c.username.getD "" ++ ":" ++ c.password.getD ""))]
  else if strTruthy c.bearer_token then
    [("Authorization", "Bearer " ++ c.bearer_token.getD "")]
  else []

/-- The `X-Scope-OrgID` / `X-Org-ID` headers (loki-client.ts lines 485-491). -/
def tenantHeaders (c : LokiAuthConfig) : List (String × String) :=
  (if strTruthy c.tenant_id then [("X-Scope-OrgID", c.tenant_id.getD "")] else [])
  ++ (if strTruthy c.org_id then [("X-Org-ID", c.org_id.getD "")] else [])

/-- The `Accept` header (loki-client.ts lines 494-498): set to
`application/json` when the output mode is `raw` or `jsonl`. -/
def acceptHeader (o : LokiQueryOptions) : List (String × String) :=
  if strTruthy o.output then
    if o.output = some "raw" ∨ o.output = some "jsonl" then
      [("Accept", "application/json")]
    else []
  else []

/-- The full header set of a `query_range` request, as a function of the
configuration value the function body reads. -/
def queryRangeHeaders (c : LokiAuthConfig) (o : LokiQueryOptions) :
    List (String × String) :=
  buildAuthHeaders c ++ tenantHeaders c ++ acceptHeader o

/-- The full header set of a labels / label-values request. -/
def labelsHeaders (c : LokiAuthConfig) : List (String × String) :=
  buildAuthHeaders c ++ tenantHeaders c

/-- The headers `queryLokiViaHttp` actually sends: the function starts from
`const config = this.auth.getConfig()` (loki-client.ts line 439), so the
header construction runs on the redacted configuration. -/
def queryLokiViaHttpHeaders (resolved : LokiAuthConfig) (o : LokiQueryOptions) :
    List (String × String) :=
  queryRangeHeaders (getConfig resolved) o

/-- The headers `getLabelsViaHttp` / `getLabelValuesViaHttp` actually send
(loki-client.ts lines 744, 941: both also start from `getConfig`). -/
def labelsViaHttpHeaders (resolved : LokiAuthConfig) : List (String × String) :=
  labelsHeaders (getConfig resolved)

/-! ## The Loki API response envelope (loki-client.ts lines 232-254) -/

/-- `LokiStream`: a label set plus (nanosecond-timestamp, log line) pairs.
Label sets are association lists in the payload's insertion order. -/
structure LokiStream where
  stream : List (String × String)
  values : List (String × String)

/-- `LokiVector`: a label set plus a single (timestamp, value) pair. -/
structure LokiVector where
  metric : List (String × String)
  value : Int × String

/-- `LokiMatrix`: a label set plus (second-timestamp, value) pairs. -/
structure LokiMatrix where
  metric : List (String × String)
  values : List (Int × String)

/-- One element of the `result` array; the envelope's `resultType`
discriminator determines which shape the code casts each element to. -/
inductive LokiResultItem where
  | stream : LokiStream → LokiResultItem
  | vector : LokiVector → LokiResultItem
  | matrix : LokiMatrix → LokiResultItem

/-- The cast `result as LokiStream[]` of the `streams` branch, as a
projection; mixed-shape envelopes (ruled out by the source's types) skip
foreign items. -/
def LokiResultItem.asStream : LokiResultItem → Option LokiStream
  | .stream s => some s
  | _ => none

/-- The cast of the `vector` branch. -/
def LokiResultItem.asVector : LokiResultItem → Option LokiVector
  | .vector v => some v
  | _ => none

/-- The cast of the `matrix` branch. -/
def LokiResultItem.asMatrix : LokiResultItem → Option LokiMatrix
  | .matrix m => some m
  | _ => none

/-- The `data` member of the envelope: `resultType` plus the `result` array.
`result = none` models a missing/null member (caught by the formatter's
falsiness guard); `some []` is a present-but-empty array, which is truthy
in JS. -/
structure LokiData where
  resultType : String
  result : Option (List LokiResultItem)

/-- `LokiApiResponse`: `status` plus an optional `data` member. -/
structure LokiApiResponse where
  status : String
  data : Option LokiData

/-! ## JSON rendering helpers (`JSON.stringify`) -/

/-- One hex digit, lower-case, of `n % 16`. -/
def hexDigit (n : Nat) : Char :=
  "0123456789abcdef".toList.getD (n % 16) '0'

/-- Four hex digits of a code point below 0x10000. -/
def hex4 (n : Nat) : String :=
  String.mk [hexDigit (n / 4096), hexDigit (n / 256), hexDigit (n / 16), hexDigit n]

/-- `JSON.stringify` escaping of one character inside a string literal. -/
def jsonEscapeChar (c : Char) : String :=
  if c = '"' then "\\\""
  else if c = '\\' then "\\\\"
  else if c = '\n' then "\\n"
  else if c = '\r' then "\\r"
  else if c = '\t' then "\\t"
  else if c = '\x08' then "\\b"
  else if c = '\x0c' then "\\f"
  else if c.toNat < 32 then "\\u" ++ hex4 c.toNat
  else String.singleton c

/-- `JSON.stringify` of a string value. -/
def jsonString (s : String) : String :=
  "\"" ++ String.join (s.toList.map jsonEscapeChar) ++ "\""

/-- Compact `JSON.stringify` of a string-valued label object. -/
def jsonLabelsObj (labels : List (String × String)) : String :=
  "\x7b" ++ String.intercalate ","
    (labels.map fun kv => jsonString kv.1 ++ ":" ++ jsonString kv.2) ++ "\x7d"

/-- The JSON line emitted for one log entry in `jsonl` output mode
(loki-client.ts lines 575-582): `JSON.stringify({ timestamp, labels, line })`. -/
def jsonlEntry (timestamp : String) (labels : List (String × String))
    (line : String) : String :=
  "\x7b\"timestamp\":" ++ jsonString timestamp
    ++ ",\"labels\":" ++ jsonLabelsObj labels
    ++ ",\"line\":" ++ jsonString line ++ "\x7d"

/-! ## Response formatter (`LokiClient.formatHttpResponse`,
loki-client.ts lines 551-630) -/

/-- `LokiClient.formatLabels` (loki-client.ts lines 637-642):
`{k1="v1", k2="v2"}` over the entries in insertion order. -/
def formatLabels (labels : List (String × String)) : String :=
  "\x7b" ++ String.intercalate ", "
    (labels.map fun kv => kv.1 ++ "=\"" ++ kv.2 ++ "\"") ++ "\x7d"

/-- The per-stream block of the `streams` branch (loki-client.ts lines
566-596): optional label header, one line per (timestamp, line) pair
formatted per output mode, optional trailing blank line. -/
def formatStreamEntry (env : DateEnv) (o : LokiQueryOptions) (s : LokiStream) :
    String :=
  (if !boolTruthy o.quiet then formatLabels s.stream ++ "\n" else "")
  ++ String.join (s.values.map fun tv =>
      if o.output = some "jsonl" then jsonlEntry tv.1 s.stream tv.2 ++ "\n"
      else if o.output = some "raw" then tv.2 ++ "\n"
      else env.isoOfNsStr tv.1 ++ " " ++ tv.2 ++ "\n")
  ++ (if !boolTruthy o.quiet then "\n" else "")

/-- The fallback `JSON.stringify(responseData, null, 2)` of the unrecognized
`resultType` branch (loki-client.ts line 629): pretty JSON with two-space
indentation, rendered over the concrete envelope shape. -/
def stringifyLabelsPretty (ind : String) (labels : List (String × String)) :
    String :=
  match labels with
  | [] => "\x7b\x7d"
  | _ => "\x7b\n" ++ String.intercalate ",\n"
      (labels.map fun kv =>
        ind ++ "  " ++ jsonString kv.1 ++ ": " ++ jsonString kv.2)
      ++ "\n" ++ ind ++ "\x7d"

/-- Pretty rendering of one `result` item for the stringify fallback. -/
def stringifyItemPretty (ind : String) : LokiResultItem → String
  | .stream s =>
    "\x7b\n"
      ++ ind ++ "  \"stream\": " ++ stringifyLabelsPretty (ind ++ "  ") s.stream
      ++ ",\n" ++ ind ++ "  \"values\": "
      ++ (match s.values with
          | [] => "[]"
          | vs => "[\n" ++ String.intercalate ",\n"
              (vs.map fun tv =>
                ind ++ "    [\n"
                  ++ ind ++ "      " ++ jsonString tv.1 ++ ",\n"
                  ++ ind ++ "      " ++ jsonString tv.2 ++ "\n"
                  ++ ind ++ "    ]")
              ++ "\n" ++ ind ++ "  ]")
      ++ "\n" ++ ind ++ "\x7d"
  | .vector v =>
    "\x7b\n"
      ++ ind ++ "  \"metric\": " ++ stringifyLabelsPretty (ind ++ "  ") v.metric
      ++ ",\n" ++ ind ++ "  \"value\": [\n"
      ++ ind ++ "    " ++ toString v.value.1 ++ ",\n"
      ++ ind ++ "    " ++ jsonString v.value.2 ++ "\n"
      ++ ind ++ "  ]\n" ++ ind ++ "\x7d"
  | .matrix m =>
    "\x7b\n"
      ++ ind ++ "  \"metric\": " ++ stringifyLabelsPretty (ind ++ "  ") m.metric
      ++ ",\n" ++ ind ++ "  \"values\": "
      ++ (match m.values with
          | [] => "[]"
          | vs => "[\n" ++ String.intercalate ",\n"
              (vs.map fun tv =>
                ind ++ "    [\n"
                  ++ ind ++ "      " ++ toString tv.1 ++ ",\n"
                  ++ ind ++ "      " ++ jsonString tv.2 ++ "\n"
                  ++ ind ++ "    ]")
              ++ "\n" ++ ind ++ "  ]")
      ++ "\n" ++ ind ++ "\x7d"

/-- `JSON.stringify(responseData, null, 2)` over the envelope; `undefined`
members are omitted, as `JSON.stringify` does. -/
def stringifyResponse (rd : LokiApiResponse) : String :=
  "\x7b\n  \"status\": " ++ jsonString rd.status
    ++ (match rd.data with
        | none => ""
        | some d =>
          ",\n  \"data\": \x7b\n    \"resultType\": " ++ jsonString d.resultType
            ++ (match d.result with
                | none => ""
                | some [] => ",\n    \"result\": []"
                | some items =>
                  ",\n    \"result\": [\n" ++ String.intercalate ",\n"
                    (items.map fun it => "      " ++ stringifyItemPretty "      " it)
                    ++ "\n    ]")
            ++ "\n  \x7d")
    ++ "\n\x7d"

/-- `LokiClient.formatHttpResponse` (loki-client.ts lines 551-630).  The
guard at line 555 uses JS falsiness: a missing/null envelope, `data` or
`result` member yields the sentinel, while a present-but-empty `result`
array (truthy in JS) falls through to the per-type branches. -/
def formatHttpResponse (env : DateEnv) (responseData : Option LokiApiResponse)
    (o : LokiQueryOptions) : String :=
  match responseData with
  | none => "No results found."
  | some rd =>
    match rd.data with
    | none => "No results found."
    | some d =>
      match d.result with
      | none => "No results found."
      | some result =>
        if d.resultType = "streams" then
          String.join ((result.filterMap LokiResultItem.asStream).map
            (formatStreamEntry env o))
        else if d.resultType = "vector" ∨ d.resultType = "matrix" then
          if d.resultType = "vector" then
            String.join ((result.filterMap LokiResultItem.asVector).map
              fun item => formatLabels item.metric ++ " " ++ item.value.2 ++ "\n")
          else
            String.join ((result.filterMap LokiResultItem.asMatrix).map
              fun item =>
                formatLabels item.metric ++ "\n"
                  ++ String.join (item.values.map fun tv =>
                      "  " ++ env.isoOfMs (tv.1 * 1000) ++ " " ++ tv.2 ++ "\n")
                  ++ "\n")
        else stringifyResponse rd

/-! ## Untyped JSON values

Used where the code inspects a parsed JSON body dynamically
(`Array.isArray`, truthiness of member accesses) and for the raw arguments
arriving at the tool boundary before zod validation. -/

/-- A parsed JSON value.  Numbers are modelled as integers (every numeric
literal the claims exercise is integral). -/
inductive JsVal where
  | null
  | bool (b : Bool)
  | num (n : Int)
  | str (s : String)
  | arr (elems : List JsVal)
  | obj (fields : List (String × JsVal))

/-- JS truthiness of a value: `null`, `false`, `0` and `""` are falsy;
every array or object (including empty ones) is truthy. -/
def JsVal.truthy : JsVal → Bool
  | .null => false
  | .bool b => b
  | .num n => n ≠ 0
  | .str s => s ≠ ""
  | .arr _ => true
  | .obj _ => true

/-- Member access `v.k`: a field of an object, `undefined` otherwise. -/
def JsVal.getField : JsVal → String → Option JsVal
  | .obj fields, k => fields.lookup k
  | _, _ => none

/-- `Array.isArray`. -/
def JsVal.isArray : JsVal → Bool
  | .arr _ => true
  | _ => false

/-! ## Typed errors (src/utils/errors.ts) and the HTTP transport -/

/-- The structured `details` payload attached to a `LokiClientError` by the
HTTP label operations; absent members stay `none`. -/
structure LokiErrorDetails where
  command : Option String := none
  labelName : Option String := none
  status : Option Nat := none
  statusText : Option String := none
  responseData : Option String := none

/-- `LokiClientError` (errors.ts lines 70-98): stable string code, message,
structured details. -/
structure LokiClientError where
  code : String
  message : String
  details : LokiErrorDetails := {}

/-- The settled outcome of an `axios.get` call: parsed body on a 2xx
response; an axios error carrying the response status on a non-2xx response
(axios's default `validateStatus` raises for those); a response-less axios
error otherwise. -/
inductive HttpOutcome where
  | ok (body : JsVal)
  | httpError (status : Nat) (statusText : String) (responseData : String)
  | networkError (message : String)

/-- `LokiClient.getLabelsViaHttp` (loki-client.ts lines 742-829).  The
function reads the redacted configuration, raises (and then re-wraps in the
catch block) when the address is missing, returns the body's `data` member
when it is a truthy array, `[]` otherwise, and wraps an axios failure into a
`http_query_error` whose details carry the response status. -/
def getLabelsViaHttp (c : LokiAuthConfig) (outcome : HttpOutcome) :
    Except LokiClientError (List JsVal) :=
  let config := getConfig c
  if !strTruthy config.addr then
    .error { code := "http_query_error",
             message := "HTTP labels query failed: Loki server address (addr) is not configured",
             details := { command := some "labels" } }
  else
    match outcome with
    | .ok body =>
      if body.truthy
          && (match body.getField "data" with
              | some d => d.truthy && d.isArray
              | none => false) then
        .ok (match body.getField "data" with
             | some (.arr elems) => elems
             | _ => [])
      else .ok []
    | .httpError status statusText responseData =>
      .error { code := "http_query_error",
               message := "HTTP labels query failed: Request failed with status code "
                 ++ toString status,
               details := { command := some "labels", status := some status,
                            statusText := some statusText,
                            responseData := some responseData } }
    | .networkError msg =>
      .error { code := "http_query_error",
               message := "HTTP labels query failed: " ++ msg,
               details := { command := some "labels" } }

/-- `LokiClient.getLabelValuesViaHttp` (loki-client.ts lines 939-1032):
identical structure, with `label values` command details carrying the label
name. -/
def getLabelValuesViaHttp (c : LokiAuthConfig) (labelName : String)
    (outcome : HttpOutcome) : Except LokiClientError (List JsVal) :=
  let config := getConfig c
  if !strTruthy config.addr then
    .error { code := "http_query_error",
             message := "HTTP label values query failed: Loki server address (addr) is not configured",
             details := { command := some "label values", labelName := some labelName } }
  else
    match outcome with
    | .ok body =>
      if body.truthy
          && (match body.getField "data" with
              | some d => d.truthy && d.isArray
              | none => false) then
        .ok (match body.getField "data" with
             | some (.arr elems) => elems
             | _ => [])
      else .ok []
    | .httpError status statusText responseData =>
      .error { code := "http_query_error",
               message := "HTTP label values query failed: Request failed with status code "
                 ++ toString status,
               details := { command := some "label values",
                            labelName := some labelName, status := some status,
                            statusText := some statusText,
                            responseData := some responseData } }
    | .networkError msg =>
      .error { code := "http_query_error",
               message := "HTTP label values query failed: " ++ msg,
               details := { command := some "label values",
                            labelName := some labelName } }

/-! ## The query-loki tool boundary (src/index.ts lines 60-146) -/

/-- The raw arguments of a `query-loki` call before zod validation; each
field is the JSON value supplied by the caller, if any.  `from`/`to` are
Lean keywords and appear as `fromArg`/`toArg`. -/
structure QueryToolRawArgs where
  query : Option JsVal := none
  fromArg : Option JsVal := none
  toArg : Option JsVal := none
  limit : Option JsVal := none
  batch : Option JsVal := none
  output : Option JsVal := none
  quiet : Option JsVal := none
  forward : Option JsVal := none

/-- `z.string()`: a string is required. -/
def zodStringCheck : Option JsVal → Bool
  | some (.str _) => true
  | _ => false

/-- `z.string().optional()`. -/
def zodOptionalStringCheck : Option JsVal → Bool
  | none => true
  | some (.str _) => true
  | _ => false

/-- `z.number().optional()`. -/
def zodOptionalNumberCheck : Option JsVal → Bool
  | none => true
  | some (.num _) => true
  | _ => false

/-- `z.boolean().optional()`. -/
def zodOptionalBooleanCheck : Option JsVal → Bool
  | none => true
  | some (.bool _) => true
  | _ => false

/-- `z.enum(["default", "raw", "jsonl"]).optional()`. -/
def zodOptionalOutputEnumCheck : Option JsVal → Bool
  | none => true
  | some (.str s) => s == "default" || s == "raw" || s == "jsonl"
  | _ => false

/-- The `query-loki` parameter schema (index.ts lines 62-92).  `limit` is
`z.number().optional()` whose `describe` string mentions a maximum of 5000,
but no numeric bound is attached to the validator; an accepted call proceeds
straight to `lokiClient.queryLoki`. -/
def queryLokiSchemaAccepts (a : QueryToolRawArgs) : Bool :=
  zodStringCheck a.query
    && zodOptionalStringCheck a.fromArg
    && zodOptionalStringCheck a.toArg
    && zodOptionalNumberCheck a.limit
    && zodOptionalNumberCheck a.batch
    && zodOptionalOutputEnumCheck a.output
    && zodOptionalBooleanCheck a.quiet
    && zodOptionalBooleanCheck a.forward

/-- The options record the tool handler builds from accepted arguments
(index.ts lines 106-110): `{ ...restOptions, from?: new Date(from),
to?: new Date(to) }`, the date conversions applied only to truthy strings. -/
def queryToolOptions (env : DateEnv) (a : QueryToolRawArgs) : LokiQueryOptions :=
  { fromDate :=
      match a.fromArg with
      | some (.str s) => if s ≠ "" then some (env.parseMs s) else none
      | _ => none
    toDate :=
      match a.toArg with
      | some (.str s) => if s ≠ "" then some (env.parseMs s) else none
      | _ => none
    limit := match a.limit with | some (.num n) => some n | _ => none
    batch := match a.batch with | some (.num n) => some n | _ => none
    quiet := match a.quiet with | some (.bool b) => some b | _ => none
    forward := match a.forward with | some (.bool b) => some b | _ => none
    output := match a.output with | some (.str s) => some s | _ => none }

/-! ## Concrete inputs used when evaluating the code at specific points -/

/-- A date environment with inert conversions, for closed evaluations whose
result does not depend on real calendar arithmetic. -/
def trivialDateEnv : DateEnv :=
  { nowMs := 0, isoOfMs := fun _ => "", isoOfNsStr := fun _ => "", parseMs := fun _ => 0 }

/-- A `streams` envelope whose `result` array is present but empty. -/
def emptyStreamsEnvelope : LokiApiResponse :=
  { status := "success", data := some { resultType := "streams", result := some [] } }

/-- A `streams` envelope with one stream carrying two (timestamp, line)
pairs. -/
def twoLineStreamsEnvelope (labels : List (String × String))
    (t1 l1 t2 l2 : String) : LokiApiResponse :=
  { status := "success",
    data := some { resultType := "streams",
                   result := some [.stream { stream := labels,
                                             values := [(t1, l1), (t2, l2)] }] } }

/-- A `query-loki` call whose caller supplied `limit = 6000`. -/
def rawArgsLimit6000 : QueryToolRawArgs :=
  { query := some (.str "up"), limit := some (.num 6000) }

/-- A `query-loki` call with `limit` unset. -/
def rawArgsNoLimit : QueryToolRawArgs :=
  { query := some (.str "up") }

/-- A resolved configuration carrying basic-auth credentials (for instance
from `LOKI_USERNAME=user` and `LOKI_PASSWORD=pass`). -/
def basicAuthResolvedConfig : LokiAuthConfig :=
  { addr := some "http://loki:3100", username := some "user",
    password := some "pass" }

/-- A resolved configuration carrying a bearer token. -/
def bearerResolvedConfig : LokiAuthConfig :=
  { addr := some "http://loki:3100", bearer_token := some "secrettoken" }

/-! # Theorems -/

/-- C1.  The claim says a caller-supplied `limit` above 5000 is rejected at
the tool boundary and that an unset `limit` is defaulted to 1000 in the HTTP
parameter builder.  Evaluating the code: the zod schema accepts
`limit = 6000` (no bound is attached, only a `describe` string), the
subprocess argument builder then emits `--limit=6000`, the HTTP parameter
builder forwards `limit=6000`, and with `limit` unset the HTTP parameter set
carries no `limit` key at all (the declared `DEFAULT_LIMIT = 1000` constant
is never used). -/
theorem query_tool_limit_neither_capped_nor_defaulted (env : DateEnv) :
    queryLokiSchemaAccepts rawArgsLimit6000 = true
      ∧ logCliQuerySpecificArgs env (queryToolOptions env rawArgsLimit6000)
          = ["--limit=6000"]
      ∧ (buildHttpParams env "up" (queryToolOptions env rawArgsLimit6000)).lookup "limit"
          = some "6000"
      ∧ (buildHttpParams env "up" (queryToolOptions env rawArgsNoLimit)).lookup "limit"
          = none :=
  ⟨rfl, rfl, rfl, rfl⟩

/-- C2 counterexample.  A `streams` envelope whose `result` array is present
but empty does not format to the "no results" sentinel: the empty array is
truthy in JS, so the guard falls through and the streams branch renders the
empty string. -/
theorem empty_streams_result_formats_to_empty_string :
    formatHttpResponse trivialDateEnv (some emptyStreamsEnvelope) {} = ""
      ∧ formatHttpResponse trivialDateEnv (some emptyStreamsEnvelope) {}
          ≠ "No results found." :=
  ⟨rfl, by decide⟩

/-- C2 as amended.  The "no results" sentinel is returned exactly when the
envelope, its `data` member or its `result` member is missing; a
present-but-empty `result` array instead formats to the empty string under
the `streams`, `vector` and `matrix` branches and to the pretty-printed
JSON fallback under an unrecognized `resultType`. -/
theorem format_sentinel_only_for_missing_result (env : DateEnv)
    (o : LokiQueryOptions) (st rt : String) :
    formatHttpResponse env none o = "No results found."
      ∧ formatHttpResponse env (some { status := st, data := none }) o
          = "No results found."
      ∧ formatHttpResponse env
          (some { status := st, data := some { resultType := rt, result := none } }) o
          = "No results found."
      ∧ formatHttpResponse env
          (some { status := st,
                  data := some { resultType := "streams", result := some [] } }) o = ""
      ∧ formatHttpResponse env
          (some { status := st,
                  data := some { resultType := "vector", result := some [] } }) o = ""
      ∧ formatHttpResponse env
          (some { status := st,
                  data := some { resultType := "matrix", result := some [] } }) o = ""
      ∧ (rt ≠ "streams" → rt ≠ "vector" → rt ≠ "matrix" →
          formatHttpResponse env
              (some { status := st,
                      data := some { resultType := rt, result := some [] } }) o
            = stringifyResponse
                { status := st,
                  data := some { resultType := rt, result := some [] } }) := by
  refine ⟨rfl, rfl, rfl, rfl, rfl, rfl, fun h1 h2 h3 => ?_⟩
  simp [formatHttpResponse, h1, h2, h3]

/-- C2 witness for the amended theorem's conditional part, at the
unrecognized result type `scalar`. -/
theorem format_sentinel_only_for_missing_result_witness :
    ("scalar" ≠ "streams" ∧ "scalar" ≠ "vector" ∧ "scalar" ≠ "matrix")
      ∧ formatHttpResponse trivialDateEnv
          (some { status := "success",
                  data := some { resultType := "scalar", result := some [] } }) {}
          = stringifyResponse
              { status := "success",
                data := some { resultType := "scalar", result := some [] } } :=
  ⟨⟨by decide, by decide, by decide⟩,
   (format_sentinel_only_for_missing_result trivialDateEnv {} "success"
      "scalar").2.2.2.2.2.2 (by decide) (by decide) (by decide)⟩

/-- C3.  The claim (and the spec) say the HTTP backend sends
`Authorization: Basic base64(username:password)` when both credentials are
present in the resolved configuration, else `Bearer` when a token is
present.  The header-building code (loki-client.ts lines 476-483) implements
exactly that conditional, but every HTTP path first calls
`this.auth.getConfig()`, which strips `password` and `bearer_token` — so at
a resolved configuration holding `username=user, password=pass` (or a bearer
token) the request carries no `Authorization` header at all. -/
theorem http_authorization_header_never_sent (o : LokiQueryOptions) :
    buildAuthHeaders basicAuthResolvedConfig
        = [("Authorization", "Basic " ++ base64Encode "user:pass")]
      ∧ base64Encode "user:pass" = "dXNlcjpwYXNz"
      ∧ buildAuthHeaders bearerResolvedConfig
          = [("Authorization", "Bearer secrettoken")]
      ∧ (queryLokiViaHttpHeaders basicAuthResolvedConfig o).lookup "Authorization"
          = none
      ∧ (queryLokiViaHttpHeaders bearerResolvedConfig o).lookup "Authorization"
          = none
      ∧ labelsViaHttpHeaders basicAuthResolvedConfig = []
      ∧ labelsViaHttpHeaders bearerResolvedConfig = [] := by
  refine ⟨rfl, by decide, rfl, ?_, ?_, rfl, rfl⟩ <;>
  · show (acceptHeader o).lookup "Authorization" = none
    unfold acceptHeader
    split
    · split <;> rfl
    · rfl

/-- C4.  With `from` and `to` both unset, the command-line argument builder
emits `--from=<now minus one hour>` and `--to=now`, in that order, ahead of
the remaining option tokens; with both set it emits the two corresponding
ISO renderings, `--from` before `--to`, and no default is substituted. -/
theorem buildQuerySpecificArgs_from_to (env : DateEnv) (f t : Int)
    (o : LokiQueryOptions) :
    buildQuerySpecificArgs env { o with fromDate := none, toDate := none }
        = ("--from=" ++ env.isoOfMs (env.nowMs - 60 * 60 * 1000)) :: "--to=now"
            :: queryOptionTailArgs o
      ∧ buildQuerySpecificArgs env { o with fromDate := some f, toDate := some t }
          = ("--from=" ++ env.isoOfMs f) :: ("--to=" ++ env.isoOfMs t)
              :: queryOptionTailArgs o := by
  constructor <;> simp [buildQuerySpecificArgs, queryOptionTailArgs]

/-- C5.  Whatever the configuration, date environment and options, the
argument list built for the command-line backend ends with the raw query
string as its single last element: the query contributes exactly one list
element, handed to `execFile` unmodified (never shell-concatenated or
split, whatever characters it contains). -/
theorem logCliAllArgs_ends_with_raw_query (c : LokiAuthConfig) (env : DateEnv)
    (o : LokiQueryOptions) (query : String) :
    (logCliAllArgs c env o query).getLast? = some query
      ∧ (logCliAllArgs c env o query).length
          = (getAuthArgs c).length + (buildGlobalArgs o).length + 1
              + (logCliQuerySpecificArgs env o).length + 1 := by
  constructor
  · show ((getAuthArgs c ++ buildGlobalArgs o ++ ["query"]
        ++ logCliQuerySpecificArgs env o) ++ [query]).getLast? = some query
    exact List.getLast?_concat _
  · simp [logCliAllArgs]
    omega

/-- Lookup distributes over list append, first list winning. -/
theorem lookup_append {V : Type} (l₁ l₂ : List (String × V)) (k : String) :
    (l₁ ++ l₂).lookup k
      = match l₁.lookup k with
        | some v => some v
        | none => l₂.lookup k := by
  induction l₁ with
  | nil => simp [List.lookup]
  | cons p l ih =>
    obtain ⟨k₀, v₀⟩ := p
    simp only [List.cons_append, List.lookup]
    cases h : k == k₀ <;> simp [h, ih]

/-- Lookup through the override map of `jsSpread`'s first component. -/
theorem lookup_map_override {V : Type} (a b : List (String × V)) (k : String) :
    (a.map fun p =>
      match b.lookup p.1 with
      | some v => (p.1, v)
      | none => p).lookup k
      = match a.lookup k with
        | some v => some ((b.lookup k).getD v)
        | none => none := by
  induction a with
  | nil => simp [List.lookup]
  | cons p a ih =>
    obtain ⟨k₀, v₀⟩ := p
    cases hb : b.lookup k₀ with
    | none =>
      cases h : k == k₀ with
      | false =>
        simp only [List.map_cons, List.lookup, hb, h]
        exact ih
      | true =>
        have hk : k = k₀ := eq_of_beq h
        subst hk
        simp only [List.map_cons, List.lookup, hb, h, Option.getD]
    | some w =>
      cases h : k == k₀ with
      | false =>
        simp only [List.map_cons, List.lookup, hb, h]
        exact ih
      | true =>
        have hk : k = k₀ := eq_of_beq h
        subst hk
        simp only [List.map_cons, List.lookup, hb, h, Option.getD]

/-- Lookup through `jsSpread`'s second component: the keys of `b` that `a`
lacks. -/
theorem lookup_filter_key_free {V : Type} (a b : List (String × V)) (k : String) :
    (b.filter fun p => (a.lookup p.1).isNone).lookup k
      = if (a.lookup k).isNone then b.lookup k else none := by
  induction b with
  | nil => simp [List.lookup]
  | cons p b ih =>
    obtain ⟨k₁, v₁⟩ := p
    have hfilter : ((k₁, v₁) :: b).filter (fun p => (a.lookup p.1).isNone)
        = if (a.lookup k₁).isNone
          then (k₁, v₁) :: b.filter (fun p => (a.lookup p.1).isNone)
          else b.filter (fun p => (a.lookup p.1).isNone) := by
      simp [List.filter_cons]
    cases hf : (a.lookup k₁).isNone with
    | true =>
      rw [hfilter, hf, if_pos rfl]
      cases h : k == k₁ with
      | true =>
        have hk : k = k₁ := eq_of_beq h
        subst hk
        simp only [List.lookup, h, hf, if_pos]
      | false =>
        simp only [List.lookup, h]
        exact ih
    | false =>
      rw [hfilter, hf, if_neg (by simp)]
      cases h : k == k₁ with
      | true =>
        have hk : k = k₁ := eq_of_beq h
        subst hk
        rw [ih, hf]
        simp
      | false =>
        rw [ih]
        simp only [List.lookup, h]

/-- Looking a key up in the object spread `{ ...a, ...b }` gives `b`'s value
when `b` has the key, else `a`'s. -/
theorem lookup_jsSpread {V : Type} (a b : List (String × V)) (k : String) :
    (jsSpread a b).lookup k
      = match b.lookup k with
        | some v => some v
        | none => a.lookup k := by
  unfold jsSpread
  rw [lookup_append, lookup_map_override, lookup_filter_key_free]
  cases ha : a.lookup k <;> cases hb : b.lookup k <;> simp [ha, hb]

/-- C6.  In the configuration merge `{ ...parsedConfig, ...this.config }`
performed by `loadFromConfigFile`, every field present in the
environment-loaded configuration is the one retained (the file's value for
the same key is discarded), and every file-supplied field with no
environment value is retained unchanged. -/
theorem mergeFileUnderEnv_env_wins {V : Type} (file env : List (String × V))
    (k : String) :
    (∀ v, env.lookup k = some v → (mergeFileUnderEnv file env).lookup k = some v)
      ∧ (env.lookup k = none →
          (mergeFileUnderEnv file env).lookup k = file.lookup k) := by
  constructor
  · intro v hv
    rw [mergeFileUnderEnv, lookup_jsSpread, hv]
  · intro hv
    rw [mergeFileUnderEnv, lookup_jsSpread, hv]

/-- C6 witness: with `addr` set in both sources the environment's value
wins, and the file's `username` (absent from the environment) is retained. -/
theorem mergeFileUnderEnv_env_wins_witness :
    (List.lookup "addr" [("addr", "http://env:3100"), ("tenant_id", "t")]
        = some "http://env:3100"
      ∧ (mergeFileUnderEnv [("addr", "http://file:3100"), ("username", "u")]
          [("addr", "http://env:3100"), ("tenant_id", "t")]).lookup "addr"
        = some "http://env:3100")
      ∧ (List.lookup "username" [("addr", "http://env:3100"), ("tenant_id", "t")]
          = none
        ∧ (mergeFileUnderEnv [("addr", "http://file:3100"), ("username", "u")]
            [("addr", "http://env:3100"), ("tenant_id", "t")]).lookup "username"
          = List.lookup "username" [("addr", "http://file:3100"), ("username", "u")]) :=
  ⟨⟨rfl,
    (mergeFileUnderEnv_env_wins [("addr", "http://file:3100"), ("username", "u")]
      [("addr", "http://env:3100"), ("tenant_id", "t")] "addr").1
      "http://env:3100" rfl⟩,
   ⟨rfl,
    (mergeFileUnderEnv_env_wins [("addr", "http://file:3100"), ("username", "u")]
      [("addr", "http://env:3100"), ("tenant_id", "t")] "username").2 rfl⟩⟩

/-- C7.  For a `streams` envelope with one stream and two (timestamp, line)
pairs: `jsonl` output yields exactly the two `JSON.stringify` lines carrying
`timestamp`, `labels` and `line`; `raw` output yields exactly the two bare
line texts; and the quiet rendering differs from the non-quiet one exactly
by the label-set header line and the trailing blank separator line. -/
theorem format_streams_two_line_modes (env : DateEnv)
    (labels : List (String × String)) (t1 l1 t2 l2 : String) :
    formatHttpResponse env (some (twoLineStreamsEnvelope labels t1 l1 t2 l2))
        { output := some "jsonl", quiet := some true }
        = jsonlEntry t1 labels l1 ++ "\n" ++ (jsonlEntry t2 labels l2 ++ "\n")
      ∧ formatHttpResponse env (some (twoLineStreamsEnvelope labels t1 l1 t2 l2))
          { output := some "raw", quiet := some true }
          = l1 ++ "\n" ++ (l2 ++ "\n")
      ∧ ∀ out : Option String,
          formatHttpResponse env (some (twoLineStreamsEnvelope labels t1 l1 t2 l2))
              { output := out, quiet := none }
            = formatLabels labels ++ "\n"
                ++ formatHttpResponse env
                    (some (twoLineStreamsEnvelope labels t1 l1 t2 l2))
                    { output := out, quiet := some true }
                ++ "\n" := by
  refine ⟨?_, ?_, fun out => ?_⟩ <;>
    simp [formatHttpResponse, twoLineStreamsEnvelope, formatStreamEntry,
      LokiResultItem.asStream, String.join, boolTruthy,
      String.empty_append, String.append_empty, String.append_assoc]

/-- C8.  A non-2xx HTTP response from the labels endpoint surfaces as a
typed `LokiClientError` with code `http_query_error` whose details carry the
response status. -/
theorem getLabels_http_error_is_typed (c : LokiAuthConfig) (s : Nat)
    (st rdata : String) (h : strTruthy c.addr = true) :
    getLabelsViaHttp c (.httpError s st rdata)
      = .error { code := "http_query_error",
                 message := "HTTP labels query failed: Request failed with status code "
                   ++ toString s,
                 details := { command := some "labels", status := some s,
                              statusText := some st,
                              responseData := some rdata } } := by
  unfold getLabelsViaHttp
  simp [getConfig, h]

/-- C8 witness: a 503 from the labels endpoint at a configured address. -/
theorem getLabels_http_error_is_typed_witness :
    strTruthy (LokiAuthConfig.addr { addr := some "http://loki:3100" }) = true
      ∧ getLabelsViaHttp { addr := some "http://loki:3100" }
          (.httpError 503 "Service Unavailable" "overloaded")
          = .error { code := "http_query_error",
                     message := "HTTP labels query failed: Request failed with status code "
                       ++ toString 503,
                     details := { command := some "labels", status := some 503,
                                  statusText := some "Service Unavailable",
                                  responseData := some "overloaded" } } :=
  ⟨rfl, getLabels_http_error_is_typed { addr := some "http://loki:3100" }
    503 "Service Unavailable" "overloaded" rfl⟩

/-- C9.  A zero `limit` or `batch` is falsy in JS, so both argument builders
emit exactly what they emit with the field unset (no `--limit`/`--batch`
token), and the HTTP parameter set carries no `limit` key. -/
theorem zero_limit_batch_treated_as_unset (env : DateEnv) (q : String)
    (o : LokiQueryOptions) :
    (buildQuerySpecificArgs env { o with limit := some 0 }
        = buildQuerySpecificArgs env { o with limit := none }
      ∧ logCliQuerySpecificArgs env { o with limit := some 0 }
          = logCliQuerySpecificArgs env { o with limit := none }
      ∧ (buildHttpParams env q { o with limit := some 0 }).lookup "limit" = none)
      ∧ (buildQuerySpecificArgs env { o with batch := some 0 }
          = buildQuerySpecificArgs env { o with batch := none }
        ∧ logCliQuerySpecificArgs env { o with batch := some 0 }
            = logCliQuerySpecificArgs env { o with batch := none }) := by
  obtain ⟨f, t, l, b, qt, fw, out⟩ := o
  refine ⟨⟨rfl, rfl, ?_⟩, rfl, rfl⟩
  cases f <;> cases t <;> cases fw <;> rfl

/-- C10.  When the labels or label-values response body lacks a `data`
member, or its `data` member is not an array, the operation returns the
empty list and raises no error. -/
theorem labels_malformed_data_yields_empty (c : LokiAuthConfig) (body : JsVal)
    (lbl : String) (haddr : strTruthy c.addr = true)
    (hdata : body.getField "data" = none
      ∨ ∀ d, body.getField "data" = some d → d.isArray = false) :
    getLabelsViaHttp c (.ok body) = .ok []
      ∧ getLabelValuesViaHttp c lbl (.ok body) = .ok [] := by
  have hcond : (body.truthy
      && (match body.getField "data" with
          | some d => d.truthy && d.isArray
          | none => false)) = false := by
    rcases hdata with h | h
    · rw [h]
      simp
    · cases hd : body.getField "data" with
      | none => simp
      | some d => simp [h d hd]
  refine ⟨?_, ?_⟩
  · unfold getLabelsViaHttp
    simp [getConfig, haddr, hcond]
  · unfold getLabelValuesViaHttp
    simp [getConfig, haddr, hcond]

/-- C10 witness: a body with a string-valued `data` member, and one with no
`data` member at all. -/
theorem labels_malformed_data_yields_empty_witness :
    strTruthy (LokiAuthConfig.addr { addr := some "http://loki:3100" }) = true
      ∧ getLabelsViaHttp { addr := some "http://loki:3100" }
          (.ok (.obj [("status", .str "success"), ("data", .str "oops")])) = .ok []
      ∧ getLabelValuesViaHttp { addr := some "http://loki:3100" } "app"
          (.ok (.obj [("status", .str "success"), ("data", .str "oops")])) = .ok [] := by
  have h := labels_malformed_data_yields_empty { addr := some "http://loki:3100" }
    (.obj [("status", .str "success"), ("data", .str "oops")]) "app" rfl
    (Or.inr (by intro d hd; cases hd; rfl))
  exact ⟨rfl, h.1, h.2⟩

end LokiMcp
